import Mathlib

/-!
Verification of the session-persistence / validity-gating core and the
selector-fallback extraction core of the smstool repository.

The definitions below are a shallow embedding of the Python sources:

* `session_manager.py` — class `SessionManager` (`load_session`,
  `is_session_valid`, `get_storage_state`, `clean_storage_state`);
* `login_module.py` — `perform_login` and the credential-resolution
  prologue of `create_playwright_session`;
* `utils/sms_query_tools.py` — `_extract_work_order_id`,
  `_parse_datetime`, and the candidate-fallback extraction logic of
  `query_sms_signature` (the identical duplicates
  `utils/helpers.py:extract_work_order_id` / `parse_datetime` are
  covered by the same definitions).

External libraries are modelled explicitly:

* Python `datetime` values are modelled as microseconds since
  0000-01-01 00:00:00 of the proleptic Gregorian calendar (`PyTime`);
  `datetime.fromisoformat` and
  `datetime.strptime(·, "%Y-%m-%d %H:%M:%S")` are modelled as the
  executable partial parsing functions `PyTime.fromisoformat?` and
  `PyTime.strptimeYmdHms?`;
* the JSON session file is modelled by the `SessionFile` /
  `StorageState` structures, with `Option` fields standing for
  possibly-missing JSON keys, and Python truthiness of dictionaries
  modelled by `.truthy` (a dict is truthy iff it has at least one key);
* exceptions that the Python code catches are modelled by the
  corresponding `Option`/`Bool` failure branches; exceptions that
  propagate are modelled explicitly where a claim concerns them
  (`perform_login`);
* page interaction (Playwright) is modelled by plain data describing
  what the page queries would return (`SignQueryPage`,
  `LoginPageBehavior`).
-/

/-! ### Model of the Python `datetime` library -/

namespace PyTime

/-- Gregorian leap-year test, as used by Python's `datetime`. -/
def isLeap (y : Nat) : Bool := (y % 4 == 0 && y % 100 != 0) || y % 400 == 0

/-- Number of days in month `m` (1-based) of year `y`. -/
def daysInMonth (y m : Nat) : Nat :=
  if m = 2 then (if isLeap y then 29 else 28)
  else if m = 4 ∨ m = 6 ∨ m = 9 ∨ m = 11 then 30
  else 31

/-- Cumulative number of days before month `m` (1-based) in year `y`. -/
def daysBeforeMonth (y m : Nat) : Nat :=
  let base := [0, 0, 31, 59, 90, 120, 151, 181, 212, 243, 273, 304, 334].getD m 0
  if m > 2 ∧ isLeap y then base + 1 else base

/-- Number of days in years `0, …, y-1` of the proleptic Gregorian calendar
(year 0 is a leap year). -/
def daysBeforeYear (y : Nat) : Nat :=
  365 * y + (y + 3) / 4 + (y + 399) / 400 - (y + 99) / 100

/-- Days since 0000-01-01 of the civil date `y-m-d`. -/
def civilDays (y m d : Nat) : Nat :=
  daysBeforeYear y + daysBeforeMonth y m + (d - 1)

/-- Microseconds since 0000-01-01 00:00:00 of the given civil datetime.
This is the order-isomorphic model of a naive Python `datetime` value:
comparison and subtraction of `datetime`s agree with comparison and
subtraction of these numbers. -/
def toMicros (y m d h mi s us : Nat) : Nat :=
  (((civilDays y m d * 24 + h) * 60 + mi) * 60 + s) * 1000000 + us

/-- Model of `datetime.min` (= `datetime(1, 1, 1)`), the value
`_parse_datetime` substitutes for unparsable timestamps. -/
def pyDatetimeMin : Nat := toMicros 1 1 1 0 0 0 0

/-- `true` iff every character of `cs` is an ASCII digit. -/
def allDigits (cs : List Char) : Bool := cs.all Char.isDigit

/-- Numeric value of a list of ASCII digit characters. -/
def digitsVal (cs : List Char) : Nat :=
  cs.foldl (fun n c => n * 10 + (c.toNat - 48)) 0

/-- Parse a non-empty all-digit character list of length exactly `k`. -/
def fixedNat? (k : Nat) (cs : List Char) : Option Nat :=
  if cs.length = k ∧ allDigits cs then some (digitsVal cs) else none

/-- Parse a 1- or 2-digit field, as the `%m`/`%d`/`%H`/`%M`/`%S`
directives of CPython's `_strptime` regexes do. -/
def flexNat? (cs : List Char) : Option Nat :=
  if (cs.length = 1 ∨ cs.length = 2) ∧ allDigits cs then some (digitsVal cs) else none

/-- Range validity of a civil datetime, as enforced by the `datetime`
constructor (`MINYEAR = 1`; months 1–12; days 1–`daysInMonth`;
hour < 24; minute, second < 60). -/
def validDateTime (y m d h mi s : Nat) : Bool :=
  decide (1 ≤ y ∧ 1 ≤ m ∧ m ≤ 12 ∧ 1 ≤ d ∧ d ≤ daysInMonth y m ∧
    h ≤ 23 ∧ mi ≤ 59 ∧ s ≤ 59)

/-- Fractional-second suffix of an ISO string: empty, or `.` followed by
1–6 digits; result in microseconds. -/
def parseFrac? : List Char → Option Nat
  | [] => some 0
  | '.' :: ds =>
    if ds ≠ [] ∧ ds.length ≤ 6 ∧ allDigits ds then
      some (digitsVal ds * 10 ^ (6 - ds.length))
    else none
  | _ => none

/-- Model of `datetime.fromisoformat` on the strings this program
produces and consumes: `YYYY-MM-DD<sep>HH:MM:SS[.ffffff]` with zero
padding, `<sep>` being `T` (what `datetime.isoformat()` emits) or a
space. Strings of any other shape are rejected (modelled as the raised
`ValueError`, which the callers of this model catch). -/
def fromisoformat? (str : String) : Option Nat :=
  match str.data with
  | y1 :: y2 :: y3 :: y4 :: c1 :: m1 :: m2 :: c2 :: d1 :: d2 :: sep ::
      h1 :: h2 :: c3 :: mi1 :: mi2 :: c4 :: s1 :: s2 :: rest =>
    if c1 = '-' ∧ c2 = '-' ∧ c3 = ':' ∧ c4 = ':' ∧ (sep = 'T' ∨ sep = ' ') then
      match fixedNat? 4 [y1, y2, y3, y4], fixedNat? 2 [m1, m2], fixedNat? 2 [d1, d2],
          fixedNat? 2 [h1, h2], fixedNat? 2 [mi1, mi2], fixedNat? 2 [s1, s2],
          parseFrac? rest with
      | some y, some mo, some dy, some h, some mi, some s, some us =>
        if validDateTime y mo dy h mi s then some (toMicros y mo dy h mi s us)
        else none
      | _, _, _, _, _, _, _ => none
    else none
  | _ => none

/-- Split a character list on a separator character (all occurrences;
adjacent separators yield empty segments). -/
def splitOnChar (sep : Char) : List Char → List (List Char)
  | [] => [[]]
  | c :: t =>
    let r := splitOnChar sep t
    if c = sep then [] :: r
    else
      match r with
      | [] => [[c]]
      | h :: rt => (c :: h) :: rt

/-- Model of `datetime.strptime(s, "%Y-%m-%d %H:%M:%S")`: per CPython's
`_strptime` regexes, `%Y` matches exactly four digits and the other
directives match one or two digits; the whole string must be consumed;
out-of-range values raise `ValueError` (modelled as `none`, which the
caller `_parse_datetime` catches). The date and time parts are taken to
be separated by a single space, as in every timestamp this program
handles. -/
def strptimeYmdHms? (str : String) : Option Nat :=
  match splitOnChar ' ' str.data with
  | [date, time] =>
    match splitOnChar '-' date, splitOnChar ':' time with
    | [ys, ms, ds], [hs, mis, ss] =>
      match fixedNat? 4 ys, flexNat? ms, flexNat? ds,
          flexNat? hs, flexNat? mis, flexNat? ss with
      | some y, some mo, some dy, some h, some mi, some s =>
        if validDateTime y mo dy h mi s then some (toMicros y mo dy h mi s 0)
        else none
      | _, _, _, _, _, _ => none
    | _, _ => none
  | _ => none

end PyTime

/-! ### Data model of the persisted session file (`session_manager.py`) -/

/-- One browser cookie, as stored inside `storage_state.cookies`.
The session logic only ever tests the cookie list for emptiness, so the
exact field set is irrelevant; these fields follow the documented
session-file shape. -/
structure Cookie where
  name : String
  value : String
  domain : String
  path : String
  deriving DecidableEq, Repr

/-- One entry of `storage_state.origins` (per-origin localStorage). -/
structure OriginState where
  origin : String
  localStorage : List (String × String)
  deriving DecidableEq, Repr

/-- The `storage_state` JSON dictionary. `none` models an absent key. -/
structure StorageState where
  cookies : Option (List Cookie)
  origins : Option (List OriginState)
  deriving DecidableEq, Repr

/-- Python truthiness of the `storage_state` dictionary: a dict is truthy
iff it is non-empty, i.e. at least one key is present. -/
def StorageState.truthy (ss : StorageState) : Bool :=
  ss.cookies.isSome || ss.origins.isSome

/-- The parsed top-level session file. `none` models an absent key. -/
structure SessionFile where
  storage_state : Option StorageState
  saved_at : Option String
  version : Option String
  deriving DecidableEq, Repr

/-- Python truthiness of the parsed session-file dictionary. -/
def SessionFile.truthy (d : SessionFile) : Bool :=
  d.storage_state.isSome || d.saved_at.isSome || d.version.isSome

/-- The cookie list `is_session_valid` inspects:
`self.session_data.get('storage_state', {}).get('cookies', [])`. -/
def cookiesOf (d : SessionFile) : List Cookie :=
  ((d.storage_state.getD ⟨none, none⟩).cookies.getD [])

/-- State of the file at `session_path`: missing, present but not valid
JSON (`json.load` raises), or present and parsed. -/
inductive SessionFileState
  | absent
  | corrupt
  | parsed (d : SessionFile)
  deriving DecidableEq, Repr

/-- State of a `SessionManager` instance: the file it points at and the
`self.session_data` cache (`None` right after construction). -/
structure SessionManager where
  file : SessionFileState
  session_data : Option SessionFile
  deriving DecidableEq, Repr

/-- Python truthiness of `self.session_data` (`None` and the empty dict
are falsy). -/
def sessionDataTruthy : Option SessionFile → Bool
  | none => false
  | some d => d.truthy

/-- `SessionManager.load_session`: returns `None` when the file is
absent, when `json.load` raises (caught), or when the parsed record has
no truthy `storage_state`; otherwise returns the `storage_state`.
When the file parses, `self.session_data` is set to the parsed record
(even when `storage_state` is then found missing); on the absent and
corrupt paths the cache is left unchanged. -/
def SessionManager.load_session (m : SessionManager) :
    Option StorageState × SessionManager :=
  match m.file with
  | .absent => (none, m)
  | .corrupt => (none, m)
  | .parsed d =>
    let m1 : SessionManager := ⟨m.file, some d⟩
    match d.storage_state with
    | none => (none, m1)
    | some ss => if ss.truthy then (some ss, m1) else (none, m1)

/-- The validity test `is_session_valid` applies to the cached record
`d` (the code after the `if not self.session_data` guards): fail when
the record is falsy, when `saved_at` is missing or empty, when
`datetime.fromisoformat` raises (caught), or when the age exceeds
`max_age_hours`; finally require a non-empty cookie list.
`now_us` is the value of `datetime.now()` in microseconds. -/
def sessionValidCore (d : SessionFile) (now_us max_age_hours : Int) : Bool :=
  if !d.truthy then false
  else
    match d.saved_at with
    | none => false
    | some s =>
      if s = "" then false
      else
        match PyTime.fromisoformat? s with
        | none => false
        | some t =>
          if now_us - (t : Int) > max_age_hours * 3600000000 then false
          else !(cookiesOf d).isEmpty

/-- `SessionManager.is_session_valid`: `False` when the file does not
exist; otherwise reload the cache if it is falsy, fail if it is still
falsy, and apply the validity test to the cached record. The returned
manager carries the possibly-updated `self.session_data`. -/
def SessionManager.is_session_valid (m : SessionManager)
    (now_us max_age_hours : Int) : Bool × SessionManager :=
  if m.file = .absent then (false, m)
  else
    let m1 := if sessionDataTruthy m.session_data then m else m.load_session.2
    match m1.session_data with
    | none => (false, m1)
    | some d => (sessionValidCore d now_us max_age_hours, m1)

/-- `SessionManager.clean_storage_state`: falsy input is returned
unchanged; otherwise a fresh dict holding only the `cookies` key
(defaulting to `[]`) is produced — `origins` is dropped. -/
def SessionManager.clean_storage_state (ss : StorageState) : StorageState :=
  if !ss.truthy then ss
  else ⟨some (ss.cookies.getD []), none⟩

/-- `SessionManager.get_storage_state`: `None` when the session is not
valid; otherwise reload the cache if falsy, return `None` when it is
still falsy or has no `storage_state` key, and return the
`storage_state`, cleaned when it is truthy. -/
def SessionManager.get_storage_state (m : SessionManager)
    (now_us max_age_hours : Int) : Option StorageState × SessionManager :=
  let r := m.is_session_valid now_us max_age_hours
  if !r.1 then (none, r.2)
  else
    let m2 := if sessionDataTruthy r.2.session_data then r.2 else r.2.load_session.2
    match m2.session_data with
    | none => (none, m2)
    | some d =>
      if !d.truthy then (none, m2)
      else
        match d.storage_state with
        | none => (none, m2)
        | some ss =>
          if ss.truthy then (some (SessionManager.clean_storage_state ss), m2)
          else (some ss, m2)

/-! ### Credential resolution (`login_module.py:create_playwright_session`) -/

/-- The error the spec calls `ConfigurationError`: the `ValueError`
raised by `create_playwright_session` when credentials cannot be
resolved, carrying its message. -/
structure ConfigurationError where
  message : String
  deriving DecidableEq, Repr

/-- The literal message of the raised `ValueError`. -/
def credentialErrorMessage : String :=
  "登录凭据未配置！\n请在 .env 文件中配置以下环境变量：\n  SSO_USERNAME=your_username\n  SSO_PASSWORD=your_password\n或者通过函数参数传入用户名和密码。"

/-- Per-field resolution `if not x: x = ENV` — the explicit argument
when it is truthy (not `None`, not empty), else the environment value. -/
def orElsePyFalsy (x : Option String) (env : String) : String :=
  match x with
  | none => env
  | some s => if s = "" then env else s

/-- The credential-resolution prologue of `create_playwright_session`:
fill each missing field from the environment (`SSO_USERNAME`,
`SSO_PASSWORD`, themselves possibly empty), then raise when either
field is still empty. -/
def create_playwright_session_credentials (x_name x_password : Option String)
    (sso_username sso_password : String) :
    Except ConfigurationError (String × String) :=
  let n := orElsePyFalsy x_name sso_username
  let p := orElsePyFalsy x_password sso_password
  if n = "" ∨ p = "" then .error ⟨credentialErrorMessage⟩ else .ok (n, p)

/-- Substring test on character lists, used to state that an error
message names a setting. -/
def containsSub : List Char → List Char → Bool
  | _, [] => true
  | [], _ :: _ => false
  | h :: t, n :: nt => List.isPrefixOf (n :: nt) (h :: t) || containsSub t (n :: nt)

/-! ### The login flow (`login_module.py:perform_login`) -/

/-- Outcome of one browser-automation call: it completes, or it raises. -/
inductive StepResult
  | ok
  | throws
  deriving DecidableEq, Repr

/-- Behaviour of the login page for one `perform_login` run: whether
each automation step raises, and whether the post-submit welcome
indicator appears within its 10-second timeout. -/
structure LoginPageBehavior where
  gotoLogin : StepResult
  fillAccount : StepResult
  fillPassword : StepResult
  clickSubmit : StepResult
  indicatorAppears : Bool
  exportState : StepResult
  deriving DecidableEq, Repr

/-- Observable events of a `perform_login` run, in program order. -/
inductive LoginEvent
  | navigate
  | fillField (selector : String)
  | submitClick
  | waitIndicator (found : Bool)
  | saveSession
  deriving DecidableEq, Repr

/-- `perform_login`: navigate to the SSO page, fill `#account` and
`#password`, click the submit button, wait for the welcome indicator
(`try … except Exception: pass`, so its absence is swallowed), export
`context.storage_state()` and hand it to `SessionManager.save_session`.
Result: the event trace and whether an exception propagated to the
caller (only the steps outside the `try` can propagate). -/
def perform_login (b : LoginPageBehavior) : List LoginEvent × Bool :=
  match b.gotoLogin with
  | .throws => ([.navigate], true)
  | .ok =>
    match b.fillAccount with
    | .throws => ([.navigate, .fillField "#account"], true)
    | .ok =>
      match b.fillPassword with
      | .throws => ([.navigate, .fillField "#account", .fillField "#password"], true)
      | .ok =>
        match b.clickSubmit with
        | .throws =>
          ([.navigate, .fillField "#account", .fillField "#password", .submitClick], true)
        | .ok =>
          match b.exportState with
          | .throws =>
            ([.navigate, .fillField "#account", .fillField "#password", .submitClick,
              .waitIndicator b.indicatorAppears], true)
          | .ok =>
            ([.navigate, .fillField "#account", .fillField "#password", .submitClick,
              .waitIndicator b.indicatorAppears, .saveSession], false)

/-! ### Work-order extraction (`utils/sms_query_tools.py`, `utils/helpers.py`) -/

/-- Whitespace test modelling the characters `str.strip()` removes, on
the whitespace this program's inputs can contain. -/
def isPyWhitespace (c : Char) : Bool :=
  c = ' ' || c = '\t' || c = '\n' || c = '\r'

/-- Model of `str.strip()`: drop leading and trailing whitespace. -/
def pyStripChars (cs : List Char) : List Char :=
  ((cs.dropWhile isPyWhitespace).reverse.dropWhile isPyWhitespace).reverse

/-- Partial model of the character class `\d` of Python's `re` module
on `str`, which matches every Unicode decimal digit (category `Nd`),
not only ASCII: modelled here by the ASCII digits together with two
representative non-ASCII `Nd` ranges (Arabic-Indic U+0660–U+0669 and
fullwidth U+FF10–U+FF19); the remaining `Nd` ranges behave the same
way and are omitted. -/
def pyIsDecimalDigit (c : Char) : Bool :=
  c.isDigit || (0x660 ≤ c.toNat && c.toNat ≤ 0x669) ||
    (0xFF10 ≤ c.toNat && c.toNat ≤ 0xFF19)

/-- `_extract_work_order_id` (= `helpers.extract_work_order_id`):
reject falsy input, strip surrounding whitespace, then
`re.search(r'\d+', text)` — the first maximal run of decimal digits —
else `None`. -/
def extract_work_order_id (text : String) : Option String :=
  if text = "" then none
  else
    match ((pyStripChars text.data).dropWhile fun c => !pyIsDecimalDigit c) with
    | [] => none
    | rest => some (String.mk (rest.takeWhile pyIsDecimalDigit))

/-- The extraction rule as the claim words it — the first maximal run
of ASCII digits of the trimmed text — stated only to compare with the
code's behaviour (`extract_work_order_id`), which uses `re`'s `\d` and
therefore accepts every Unicode decimal digit. -/
def asciiDigitRunSpec (text : String) : Option String :=
  if text = "" then none
  else
    match ((pyStripChars text.data).dropWhile fun c => !c.isDigit) with
    | [] => none
    | rest => some (String.mk (rest.takeWhile Char.isDigit))

/-- `_parse_datetime` (= `helpers.parse_datetime`): strip, parse with
format `%Y-%m-%d %H:%M:%S`, and fall back to `datetime.min` when the
parse raises. Total — the comparison key never crashes. -/
def parse_datetime (date_str : String) : Nat :=
  (PyTime.strptimeYmdHms? (String.mk (pyStripChars date_str.data))).getD
    PyTime.pyDatetimeMin

/-- One entry of the `work_order_data` list built by
`query_sms_signature` from a table row. -/
structure WorkOrderRow where
  work_order_id : String
  modify_time : String
  row_index : Nat
  deriving DecidableEq, Repr

/-- Sort key of a row: its parsed modification time. -/
def rowKey (r : WorkOrderRow) : Nat := parse_datetime r.modify_time

/-- Stable descending insertion: `r` is placed before the first element
whose key is not larger than `rowKey r`, so earlier rows stay before
later rows with equal keys. -/
def insertDesc (r : WorkOrderRow) : List WorkOrderRow → List WorkOrderRow
  | [] => [r]
  | b :: t => if rowKey b > rowKey r then b :: insertDesc r t else r :: b :: t

/-- Model of `work_order_data.sort(key=…, reverse=True)`: Python's sort
is stable, and with `reverse=True` elements with equal keys keep their
original relative order; this stable descending insertion sort computes
exactly that ordering. -/
def sortByModifyTimeDesc : List WorkOrderRow → List WorkOrderRow
  | [] => []
  | r :: t => insertDesc r (sortByModifyTimeDesc t)

/-- `work_order_data.sort(…); work_order_data[0]` guarded by
`if work_order_data:` — the selected row, `none` when the list is
empty. -/
def selectLatestRow (rows : List WorkOrderRow) : Option WorkOrderRow :=
  (sortByModifyTimeDesc rows).head?

/-- The two cell texts a table row yields: first column (work-order id)
and third column (modification time); `none` models
`query_selector` finding no such cell. -/
structure TableRowCells where
  firstCell : Option String
  thirdCell : Option String
  deriving DecidableEq, Repr

/-- The row loop of extraction method 1: keep a row when both cells are
present, an id can be extracted from the first, and the stripped third
is non-empty; record the row index. -/
def buildWorkOrderData (cells : List TableRowCells) : List WorkOrderRow :=
  cells.enum.filterMap fun p =>
    match p.2.firstCell, p.2.thirdCell with
    | some ft, some tt =>
      (match extract_work_order_id ft with
      | some id =>
        let mt := String.mk (pyStripChars tt.data)
        if mt = "" then none else some ⟨id, mt, p.1⟩
      | none => none)
    | _, _ => none

/-- What the sign-query page yields to the three extraction candidates
of `query_sms_signature`: the visible table rows, the text of
`div.break-all` (`none` models the 3-second `wait_for_selector`
timeout), and the texts of the fallback `td` cells. -/
structure SignQueryPage where
  tableRows : List TableRowCells
  breakAllText : Option String
  fallbackCellTexts : List String
  deriving DecidableEq, Repr

/-- The three extraction candidates, in their fixed priority order. -/
inductive ExtractionCandidate
  | tableRows
  | breakAllDiv
  | fallbackCells
  deriving DecidableEq, Repr

/-- Extraction candidate 1: collect ids and timestamps from the table
rows and pick the row with the latest modification time. -/
def tableRowsCandidate (pm : SignQueryPage) : Option String :=
  (selectLatestRow (buildWorkOrderData pm.tableRows)).map WorkOrderRow.work_order_id

/-- Extraction candidate 3: scan the fallback `td` cells and return the
first extracted id. -/
def firstCellWithDigits : List String → Option String
  | [] => none
  | c :: t =>
    match extract_work_order_id c with
    | some id => some id
    | none => firstCellWithDigits t

/-- The candidate-fallback core of `query_sms_signature`: try the table
candidate; only when it produced nothing, wait for `div.break-all` and
extract from its text; only when that wait timed out, scan the fallback
cells. The second component records which candidates were invoked, in
order. -/
def query_sms_signature (pm : SignQueryPage) :
    Option String × List ExtractionCandidate :=
  match tableRowsCandidate pm with
  | some id => (some id, [.tableRows])
  | none =>
    match pm.breakAllText with
    | some txt => (extract_work_order_id txt, [.tableRows, .breakAllDiv])
    | none =>
      (firstCellWithDigits pm.fallbackCellTexts,
        [.tableRows, .breakAllDiv, .fallbackCells])

/-! ### Sample data used by witnesses -/

/-- A concrete cookie for witness instantiations. -/
def sampleCookie : Cookie := ⟨"login_token", "abc123", "alibaba-inc.com", "/"⟩

/-- A concrete origins payload (per-origin localStorage) for witnesses. -/
def sampleOrigins : List OriginState :=
  [⟨"https://alicom-ops.alibaba-inc.com", [("cache", "payload")]⟩]

/-- A concrete well-formed parsed session file for witnesses. -/
def sampleFile : SessionFile :=
  ⟨some ⟨some [sampleCookie], some sampleOrigins⟩,
    some "2026-10-12T00:00:00", some "1.0"⟩

/-- The parse of `sampleFile`'s `saved_at` (2026-10-12 00:00:00), in
microseconds of the `PyTime` model. -/
def sampleSavedAtMicros : Nat := 63958982400000000

/-- A concrete `datetime.now()` 12 hours after `sampleFile` was saved. -/
def sampleNow : Int := 63958982400000000 + 43200000000

/-! ### Helper lemmas about the session manager -/

/-- Loading with a parsed file always caches the parsed record,
whatever the previous cache was and whatever the load returns. -/
theorem load_session_parsed_snd (d : SessionFile) (sd : Option SessionFile) :
    (SessionManager.load_session ⟨.parsed d, sd⟩).2 = ⟨.parsed d, some d⟩ := by
  cases hss : d.storage_state with
  | none => simp [SessionManager.load_session, hss]
  | some ss =>
    by_cases htr : ss.truthy <;> simp [SessionManager.load_session, hss, htr]

/-- On a freshly constructed manager over a parsed file,
`is_session_valid` reloads the cache and evaluates the core test on the
parsed record. -/
theorem is_session_valid_fresh (d : SessionFile) (now H : Int) :
    (SessionManager.is_session_valid ⟨.parsed d, none⟩ now H).1 =
      sessionValidCore d now H := by
  unfold SessionManager.is_session_valid
  simp [sessionDataTruthy, load_session_parsed_snd]

/-- Evaluation of the core validity test on a record whose `saved_at`
parses: it reduces to the age test conjoined with cookie non-emptiness. -/
theorem sessionValidCore_eval (d : SessionFile) (s : String) (t : Nat)
    (h1 : d.saved_at = some s) (h2 : PyTime.fromisoformat? s = some t)
    (now H : Int) :
    sessionValidCore d now H =
      (decide (now - (t : Int) ≤ H * 3600000000) && !(cookiesOf d).isEmpty) := by
  have hs : s ≠ "" := by
    intro e
    rw [e] at h2
    simp [PyTime.fromisoformat?] at h2
  have htr : d.truthy = true := by simp [SessionFile.truthy, h1]
  unfold sessionValidCore
  rw [h1]
  simp only [htr, Bool.not_true, Bool.false_eq_true, if_false, hs, h2]
  rcases le_or_lt (now - (t : Int)) (H * 3600000000) with hle | hlt
  · simp [not_lt.2 hle, hle]
  · simp [hlt, not_le.2 hlt]

/-- The core validity test fails whenever the record's cookie list is
empty, regardless of the current time and the maximum age. -/
theorem sessionValidCore_false_of_no_cookies (d : SessionFile) (now H : Int)
    (hc : cookiesOf d = []) : sessionValidCore d now H = false := by
  unfold sessionValidCore
  split
  · rfl
  · split
    · rfl
    · split
      · rfl
      · split
        · rfl
        · split
          · rfl
          · simp [hc]

/-- The core validity test fails when `saved_at` is missing. -/
theorem sessionValidCore_false_of_saved_at_none (d : SessionFile) (now H : Int)
    (h : d.saved_at = none) : sessionValidCore d now H = false := by
  unfold sessionValidCore
  rw [h]
  split <;> rfl

/-- The core validity test fails when `saved_at` does not parse. -/
theorem sessionValidCore_false_of_unparsable (d : SessionFile) (s : String)
    (now H : Int) (h1 : d.saved_at = some s)
    (h2 : PyTime.fromisoformat? s = none) : sessionValidCore d now H = false := by
  unfold sessionValidCore
  rw [h1]
  by_cases hse : s = "" <;> simp [hse, h2]

/-- If the core validity test passes, the record has a non-empty cookie
list under a present `storage_state`, and is truthy. -/
theorem sessionValidCore_true_inv (d : SessionFile) (now H : Int)
    (h : sessionValidCore d now H = true) :
    d.truthy = true ∧
      ∃ ss l, d.storage_state = some ss ∧ ss.cookies = some l ∧ l ≠ [] := by
  unfold sessionValidCore at h
  by_cases htr : d.truthy = true
  case neg =>
    rw [Bool.not_eq_true] at htr
    simp [htr] at h
  case pos =>
    refine ⟨htr, ?_⟩
    simp only [htr, Bool.not_true, Bool.false_eq_true, if_false] at h
    rcases hsa : d.saved_at with _ | s
    · rw [hsa] at h; simp at h
    · rw [hsa] at h
      by_cases hse : s = ""
      · simp [hse] at h
      · simp only [hse, if_false] at h
        rcases hpar : PyTime.fromisoformat? s with _ | t
        · rw [hpar] at h; simp at h
        · rw [hpar] at h
          by_cases hage : now - (t : Int) > H * 3600000000
          · simp [hage] at h
          · simp only [hage, if_false] at h
            rcases hss : d.storage_state with _ | ss
            · simp [cookiesOf, hss] at h
            · rcases hck : ss.cookies with _ | l
              · simp [cookiesOf, hss, hck] at h
              · refine ⟨ss, l, rfl, hck, ?_⟩
                simpa [cookiesOf, hss, hck] using h

/-- If the core validity test passes, the record's `saved_at` is
present, parses, and its age is within the allowed bound — the record
is not expired. -/
theorem sessionValidCore_true_age (d : SessionFile) (now H : Int)
    (h : sessionValidCore d now H = true) :
    ∃ s t, d.saved_at = some s ∧ PyTime.fromisoformat? s = some t ∧
      now - (t : Int) ≤ H * 3600000000 := by
  unfold sessionValidCore at h
  by_cases htr : d.truthy = true
  case neg =>
    rw [Bool.not_eq_true] at htr
    simp [htr] at h
  case pos =>
    simp only [htr, Bool.not_true, Bool.false_eq_true, if_false] at h
    rcases hsa : d.saved_at with _ | s
    · rw [hsa] at h; simp at h
    · rw [hsa] at h
      by_cases hse : s = ""
      · simp [hse] at h
      · simp only [hse, if_false] at h
        rcases hpar : PyTime.fromisoformat? s with _ | t
        · rw [hpar] at h; simp at h
        · rw [hpar] at h
          by_cases hage : now - (t : Int) > H * 3600000000
          · simp [hage] at h
          · exact ⟨s, t, rfl, hpar, not_lt.1 hage⟩

/-- If `is_session_valid` reports `true`, the manager it returns caches
a record that passes the core test. -/
theorem is_session_valid_true_inv (m : SessionManager) (now H : Int)
    (h : (m.is_session_valid now H).1 = true) :
    ∃ d, (m.is_session_valid now H).2.session_data = some d ∧
      sessionValidCore d now H = true := by
  unfold SessionManager.is_session_valid at h ⊢
  by_cases habs : m.file = .absent
  · simp [habs] at h
  · simp only [habs, if_false] at h ⊢
    rcases hm1 : (if sessionDataTruthy m.session_data then m
        else m.load_session.2).session_data with _ | d
    · rw [hm1] at h; simp at h
    · rw [hm1] at h ⊢
      exact ⟨d, rfl, h⟩

/-! ### Claims about the Session Validator (C2, C3) -/

/-- C2: for a loaded session record — a freshly constructed manager
over a parsed file whose `saved_at` parses to the instant `t` —
`is_session_valid(max_age_hours)` returns `true` exactly when
`now - t ≤ max_age_hours` (hours converted to microseconds) and the
record's cookie list is non-empty; in particular a record whose cookie
list is empty is invalid regardless of its age, age 0 included. -/
theorem is_session_valid_characterization (d : SessionFile) (s : String) (t : Nat)
    (now H : Int) (h1 : d.saved_at = some s)
    (h2 : PyTime.fromisoformat? s = some t) :
    (SessionManager.is_session_valid ⟨.parsed d, none⟩ now H).1 =
      (decide (now - (t : Int) ≤ H * 3600000000) && !(cookiesOf d).isEmpty) ∧
    (cookiesOf d = [] →
      (SessionManager.is_session_valid ⟨.parsed d, none⟩ now H).1 = false) := by
  constructor
  · rw [is_session_valid_fresh, sessionValidCore_eval d s t h1 h2 now H]
  · intro hc
    rw [is_session_valid_fresh]
    exact sessionValidCore_false_of_no_cookies d now H hc

/-- Witness for C2: a record saved at 2026-10-12 00:00:00, examined 12
hours later with a 24-hour limit. -/
theorem is_session_valid_characterization_witness :
    (SessionManager.is_session_valid ⟨.parsed sampleFile, none⟩ sampleNow 24).1 =
      (decide (sampleNow - (sampleSavedAtMicros : Int) ≤ 24 * 3600000000) &&
        !(cookiesOf sampleFile).isEmpty) :=
  (is_session_valid_characterization sampleFile "2026-10-12T00:00:00"
    sampleSavedAtMicros sampleNow 24 rfl (by decide)).1

/-- C3: for a fixed loaded record with a parsable `saved_at` (instant
`t`) and a non-empty cookie list, `is_session_valid(H)` is `true`
exactly for those `H` with `now - t ≤ H` hours — and is therefore
monotone in the `max_age_hours` argument, with no non-monotonic flips. -/
theorem is_session_valid_expiry_monotone (d : SessionFile) (s : String) (t : Nat)
    (now : Int) (h1 : d.saved_at = some s)
    (h2 : PyTime.fromisoformat? s = some t) (h3 : cookiesOf d ≠ []) :
    (∀ H : Int, (SessionManager.is_session_valid ⟨.parsed d, none⟩ now H).1 = true ↔
      now - (t : Int) ≤ H * 3600000000) ∧
    (∀ H1 H2 : Int, H1 ≤ H2 →
      (SessionManager.is_session_valid ⟨.parsed d, none⟩ now H1).1 = true →
      (SessionManager.is_session_valid ⟨.parsed d, none⟩ now H2).1 = true) := by
  have key : ∀ H : Int,
      (SessionManager.is_session_valid ⟨.parsed d, none⟩ now H).1 = true ↔
        now - (t : Int) ≤ H * 3600000000 := by
    intro H
    rw [is_session_valid_fresh, sessionValidCore_eval d s t h1 h2 now H]
    simp [h3]
  refine ⟨key, ?_⟩
  intro H1 H2 hH h
  rw [key] at h ⊢
  calc now - (t : Int) ≤ H1 * 3600000000 := h
    _ ≤ H2 * 3600000000 := mul_le_mul_of_nonneg_right hH (by norm_num)

/-- Witness for C3: the sample record, 12 hours old, compared against
limits of 24 and 48 hours. -/
theorem is_session_valid_expiry_monotone_witness :
    ((SessionManager.is_session_valid ⟨.parsed sampleFile, none⟩ sampleNow 24).1 = true ↔
      sampleNow - (sampleSavedAtMicros : Int) ≤ 24 * 3600000000) ∧
    (24 ≤ (48 : Int)) :=
  ⟨(is_session_valid_expiry_monotone sampleFile "2026-10-12T00:00:00"
      sampleSavedAtMicros sampleNow rfl (by decide) (by decide)).1 24,
    by norm_num⟩

/-! ### Claim about degradation of load and validation (C4) -/

/-- C4 counterexample: a parsed session file with a truthy
`storage_state` but no `saved_at` key. `load_session` returns the
storage state — not `None` — so the claim that `load` returns absent
for every listed data-shape problem (including a missing `saved_at`)
is false; only `is_session_valid` reports `false` there. -/
theorem load_session_some_despite_missing_saved_at :
    (SessionManager.load_session
        ⟨.parsed ⟨some ⟨some [sampleCookie], none⟩, none, some "1.0"⟩, none⟩).1 =
      some ⟨some [sampleCookie], none⟩ ∧
    (⟨some ⟨some [sampleCookie], none⟩, none, some "1.0"⟩ : SessionFile).saved_at =
      none := by
  decide

/-- C4 amended: neither operation propagates a failure for data-shape
problems. `load_session` returns `None` when the file is absent, when
its content is unparsable, or when the parsed record's `storage_state`
is missing or falsy; and on a freshly constructed manager
`is_session_valid` returns `false` in all five listed states — file
absent, content unparsable, `storage_state` missing, `saved_at` missing
or malformed, and empty cookie set (`load`, however, returns the
storage state, not absent, when only `saved_at` or the cookie set is
defective). -/
theorem session_load_and_valid_degrade :
    (∀ m : SessionManager, m.file = .absent → m.load_session.1 = none) ∧
    (∀ m : SessionManager, m.file = .corrupt → m.load_session.1 = none) ∧
    (∀ (m : SessionManager) (d : SessionFile), m.file = .parsed d →
      d.storage_state = none → m.load_session.1 = none) ∧
    (∀ (m : SessionManager) (d : SessionFile) (ss : StorageState),
      m.file = .parsed d → d.storage_state = some ss → ss.truthy = false →
      m.load_session.1 = none) ∧
    (∀ (m : SessionManager) (now H : Int), m.file = .absent →
      (m.is_session_valid now H).1 = false) ∧
    (∀ (m : SessionManager) (now H : Int), m.session_data = none →
      m.file = .corrupt → (m.is_session_valid now H).1 = false) ∧
    (∀ (d : SessionFile) (now H : Int), d.storage_state = none →
      (SessionManager.is_session_valid ⟨.parsed d, none⟩ now H).1 = false) ∧
    (∀ (d : SessionFile) (now H : Int), d.saved_at = none →
      (SessionManager.is_session_valid ⟨.parsed d, none⟩ now H).1 = false) ∧
    (∀ (d : SessionFile) (s : String) (now H : Int), d.saved_at = some s →
      PyTime.fromisoformat? s = none →
      (SessionManager.is_session_valid ⟨.parsed d, none⟩ now H).1 = false) ∧
    (∀ (d : SessionFile) (now H : Int), cookiesOf d = [] →
      (SessionManager.is_session_valid ⟨.parsed d, none⟩ now H).1 = false) := by
  refine ⟨?_, ?_, ?_, ?_, ?_, ?_, ?_, ?_, ?_, ?_⟩
  · intro m h; simp [SessionManager.load_session, h]
  · intro m h; simp [SessionManager.load_session, h]
  · intro m d hf hss; simp [SessionManager.load_session, hf, hss]
  · intro m d ss hf hss htr; simp [SessionManager.load_session, hf, hss, htr]
  · intro m now H h; simp [SessionManager.is_session_valid, h]
  · intro m now H hsd hf
    simp [SessionManager.is_session_valid, SessionManager.load_session,
      sessionDataTruthy, hsd, hf]
  · intro d now H hss
    rw [is_session_valid_fresh]
    exact sessionValidCore_false_of_no_cookies d now H (by simp [cookiesOf, hss])
  · intro d now H h
    rw [is_session_valid_fresh]
    exact sessionValidCore_false_of_saved_at_none d now H h
  · intro d s now H h1 h2
    rw [is_session_valid_fresh]
    exact sessionValidCore_false_of_unparsable d s now H h1 h2
  · intro d now H hc
    rw [is_session_valid_fresh]
    exact sessionValidCore_false_of_no_cookies d now H hc

/-- Witness for C4 (amended): the absent and corrupt file states, a
malformed `saved_at`, and an empty cookie list. -/
theorem session_load_and_valid_degrade_witness :
    (SessionManager.load_session ⟨.absent, none⟩).1 = none ∧
    (SessionManager.load_session ⟨.corrupt, none⟩).1 = none ∧
    (SessionManager.is_session_valid
      ⟨.parsed ⟨some ⟨some [sampleCookie], none⟩, some "not-a-date", some "1.0"⟩,
        none⟩ 0 24).1 = false ∧
    (SessionManager.is_session_valid
      ⟨.parsed ⟨some ⟨some [], none⟩, some "2026-10-12T00:00:00", some "1.0"⟩,
        none⟩ sampleNow 24).1 = false :=
  ⟨session_load_and_valid_degrade.1 ⟨.absent, none⟩ rfl,
    session_load_and_valid_degrade.2.1 ⟨.corrupt, none⟩ rfl,
    session_load_and_valid_degrade.2.2.2.2.2.2.2.2.1
      ⟨some ⟨some [sampleCookie], none⟩, some "not-a-date", some "1.0"⟩
      "not-a-date" 0 24 rfl (by decide),
    session_load_and_valid_degrade.2.2.2.2.2.2.2.2.2
      ⟨some ⟨some [], none⟩, some "2026-10-12T00:00:00", some "1.0"⟩
      sampleNow 24 (by decide)⟩

/-! ### Claim about the Session Sanitizer (C5) -/

/-- C5: for any truthy (well-formed) `storage_state`, including one
carrying an `origins`/localStorage payload, `clean_storage_state`
returns a value containing only the `cookies` field; and applying
`clean_storage_state` twice equals applying it once, for every input. -/
theorem clean_storage_state_only_cookies_idempotent (ss : StorageState)
    (h : ss.truthy = true) :
    (SessionManager.clean_storage_state ss).origins = none ∧
    (SessionManager.clean_storage_state ss).cookies = some (ss.cookies.getD []) ∧
    ∀ ss2 : StorageState,
      SessionManager.clean_storage_state (SessionManager.clean_storage_state ss2) =
        SessionManager.clean_storage_state ss2 := by
  refine ⟨?_, ?_, ?_⟩
  · simp [SessionManager.clean_storage_state, h]
  · simp [SessionManager.clean_storage_state, h]
  · intro ss2
    by_cases h2 : ss2.truthy = true
    · have hc : SessionManager.clean_storage_state ss2 =
          ⟨some (ss2.cookies.getD []), none⟩ := by
        simp [SessionManager.clean_storage_state, h2]
      rw [hc]
      have h3 : (⟨some (ss2.cookies.getD []), none⟩ : StorageState).truthy = true := by
        simp [StorageState.truthy]
      simp [SessionManager.clean_storage_state, h3]
    · rw [Bool.not_eq_true] at h2
      simp [SessionManager.clean_storage_state, h2]

/-- Witness for C5: a storage state with a non-trivial origins payload. -/
theorem clean_storage_state_only_cookies_idempotent_witness :
    (SessionManager.clean_storage_state
      ⟨some [sampleCookie], some sampleOrigins⟩).origins = none ∧
    (SessionManager.clean_storage_state
        ⟨some [sampleCookie], some sampleOrigins⟩).cookies =
      some ((some [sampleCookie]).getD []) :=
  ⟨(clean_storage_state_only_cookies_idempotent
      ⟨some [sampleCookie], some sampleOrigins⟩ (by decide)).1,
    (clean_storage_state_only_cookies_idempotent
      ⟨some [sampleCookie], some sampleOrigins⟩ (by decide)).2.1⟩

/-! ### Claim about the validity-gated accessor (C10) -/

/-- C10: every non-`None` storage state returned by
`get_storage_state` has no `origins` field and a present, non-empty
cookie list, and is produced only after the validity gate passed: the
gating record's `saved_at` is present, parses to an instant `t`, and
`now - t` is within `max_age_hours` — so a consumer never receives an
expired session, an empty cookie set, or a localStorage payload through
this interface. -/
theorem get_storage_state_shape (m : SessionManager) (now H : Int)
    (ss : StorageState) (h : (m.get_storage_state now H).1 = some ss) :
    (ss.origins = none ∧ ∃ l, ss.cookies = some l ∧ l ≠ []) ∧
    (m.is_session_valid now H).1 = true ∧
    ∃ d s t, (m.is_session_valid now H).2.session_data = some d ∧
      d.saved_at = some s ∧ PyTime.fromisoformat? s = some t ∧
      now - (t : Int) ≤ H * 3600000000 := by
  cases hv : (m.is_session_valid now H).1 with
  | false => simp [SessionManager.get_storage_state, hv] at h
  | true =>
    obtain ⟨d, hd, hcore⟩ := is_session_valid_true_inv m now H hv
    obtain ⟨htr, ss0, l, hss0, hck, hl⟩ := sessionValidCore_true_inv d now H hcore
    obtain ⟨s, t, hsa, hpar, hage⟩ := sessionValidCore_true_age d now H hcore
    have hsdt : sessionDataTruthy (some d) = true := htr
    have hsst : ss0.truthy = true := by simp [StorageState.truthy, hck]
    simp only [SessionManager.get_storage_state, hv, hsdt, hd, htr, hss0, hsst,
      Bool.not_true, Bool.false_eq_true, if_false, if_true, Option.some.injEq] at h
    refine ⟨?_, rfl, d, s, t, hd, hsa, hpar, hage⟩
    rw [← h]
    refine ⟨?_, l, ?_, hl⟩
    · simp [SessionManager.clean_storage_state, hsst]
    · simp [SessionManager.clean_storage_state, hsst, hck]

/-- Witness for C10: the sample session, 12 hours old, yields a cleaned
storage state with only the cookie list, and its record is within the
24-hour bound. -/
theorem get_storage_state_shape_witness :
    (SessionManager.get_storage_state ⟨.parsed sampleFile, none⟩ sampleNow 24).1 =
      some ⟨some [sampleCookie], none⟩ ∧
    (((⟨some [sampleCookie], none⟩ : StorageState).origins = none ∧
      ∃ l, (⟨some [sampleCookie], none⟩ : StorageState).cookies = some l ∧ l ≠ []) ∧
      (SessionManager.is_session_valid ⟨.parsed sampleFile, none⟩ sampleNow 24).1 =
        true ∧
      ∃ d s t,
        (SessionManager.is_session_valid
          ⟨.parsed sampleFile, none⟩ sampleNow 24).2.session_data = some d ∧
        d.saved_at = some s ∧ PyTime.fromisoformat? s = some t ∧
        sampleNow - (t : Int) ≤ 24 * 3600000000) :=
  ⟨by decide,
    get_storage_state_shape ⟨.parsed sampleFile, none⟩ sampleNow 24
      ⟨some [sampleCookie], none⟩ (by decide)⟩

/-! ### Claim about credential resolution (C6) -/

/-- C6: per field, the explicit argument wins when non-empty, else the
environment value when non-empty; when either field stays unresolved
the call fails with a `ConfigurationError` whose message names both
candidate environment settings (`SSO_USERNAME` and `SSO_PASSWORD`), so
a half-resolved credential pair is never returned. -/
theorem credential_resolution_precedence :
    (∀ n p eu ep : String, n ≠ "" → p ≠ "" →
      create_playwright_session_credentials (some n) (some p) eu ep = .ok (n, p)) ∧
    (∀ eu ep : String, eu ≠ "" → ep ≠ "" →
      create_playwright_session_credentials none none eu ep = .ok (eu, ep)) ∧
    (∀ (xn xp : Option String) (eu ep : String) (r : String × String),
      create_playwright_session_credentials xn xp eu ep = .ok r →
      r.1 ≠ "" ∧ r.2 ≠ "") ∧
    (∀ (xn xp : Option String) (eu ep : String) (e : ConfigurationError),
      create_playwright_session_credentials xn xp eu ep = .error e →
      containsSub e.message.data "SSO_USERNAME".data = true ∧
      containsSub e.message.data "SSO_PASSWORD".data = true) ∧
    create_playwright_session_credentials none none "" "" =
      .error ⟨credentialErrorMessage⟩ := by
  refine ⟨?_, ?_, ?_, ?_, ?_⟩
  · intro n p eu ep hn hp
    simp [create_playwright_session_credentials, orElsePyFalsy, hn, hp]
  · intro eu ep heu hep
    simp [create_playwright_session_credentials, orElsePyFalsy, heu, hep]
  · intro xn xp eu ep r h
    simp only [create_playwright_session_credentials] at h
    split at h
    · exact absurd h (by simp)
    · next hcond =>
      rw [not_or] at hcond
      cases h
      exact hcond
  · intro xn xp eu ep e h
    simp only [create_playwright_session_credentials] at h
    split at h
    · have he : e = ⟨credentialErrorMessage⟩ := by
        cases h
        rfl
      rw [he]
      exact ⟨by decide, by decide⟩
    · exact absurd h (by simp)
  · rfl

/-- Witness for C6: explicit credentials beat present environment
values, and the doubly-missing case yields the error naming both. -/
theorem credential_resolution_precedence_witness :
    create_playwright_session_credentials (some "alice") (some "secret")
      "env_user" "env_pass" = .ok ("alice", "secret") ∧
    create_playwright_session_credentials none none "" "" =
      .error ⟨credentialErrorMessage⟩ :=
  ⟨credential_resolution_precedence.1 "alice" "secret" "env_user" "env_pass"
      (by decide) (by decide),
    credential_resolution_precedence.2.2.2.2⟩

/-! ### Claim about fallback ordering (C7) -/

/-- C7: the extraction candidates of `query_sms_signature` are
evaluated strictly in priority order and the first structural success
wins: when the table candidate succeeds, the `div.break-all` candidate
is never invoked; when the table candidate fails and the
`div.break-all` candidate succeeds, its result is returned and the
fallback-cell candidate is never invoked — regardless of whether a
later candidate would also have succeeded. -/
theorem fallback_order_first_success_wins :
    (∀ (pm : SignQueryPage) (v : String), tableRowsCandidate pm = some v →
      query_sms_signature pm = (some v, [.tableRows]) ∧
      ExtractionCandidate.breakAllDiv ∉ (query_sms_signature pm).2) ∧
    (∀ (pm : SignQueryPage) (txt v : String), tableRowsCandidate pm = none →
      pm.breakAllText = some txt → extract_work_order_id txt = some v →
      query_sms_signature pm = (some v, [.tableRows, .breakAllDiv]) ∧
      ExtractionCandidate.fallbackCells ∉ (query_sms_signature pm).2) := by
  constructor
  · intro pm v h
    have he : query_sms_signature pm = (some v, [.tableRows]) := by
      unfold query_sms_signature
      rw [h]
    refine ⟨he, ?_⟩
    rw [he]
    simp
  · intro pm txt v h1 h2 h3
    have he : query_sms_signature pm =
        (extract_work_order_id txt, [.tableRows, .breakAllDiv]) := by
      unfold query_sms_signature
      rw [h1, h2]
    rw [h3] at he
    refine ⟨he, ?_⟩
    rw [he]
    simp

/-- Witness for C7: a page where the table candidate succeeds (second
candidate never invoked although its text would also match), and a page
where the table is empty and `div.break-all` succeeds (third candidate
never invoked). -/
theorem fallback_order_first_success_wins_witness :
    query_sms_signature ⟨[⟨some "111", some "2025-12-15 21:28:23"⟩], some "999", []⟩ =
      (some "111", [.tableRows]) ∧
    query_sms_signature ⟨[], some "20055094254<span>copy</span>", []⟩ =
      (some "20055094254", [.tableRows, .breakAllDiv]) :=
  ⟨(fallback_order_first_success_wins.1
      ⟨[⟨some "111", some "2025-12-15 21:28:23"⟩], some "999", []⟩ "111"
      (by decide)).1,
    (fallback_order_first_success_wins.2
      ⟨[], some "20055094254<span>copy</span>", []⟩ "20055094254<span>copy</span>"
      "20055094254" (by decide) rfl (by decide)).1⟩

/-! ### Claim about the login flow (C1) -/

/-- C1 counterexample: a run in which every automation step completes
but the post-submit login indicator never appears within its timeout —
the spec's `LoggingIn → LoginFailed` path. `perform_login` swallows the
indicator timeout and still saves the session, so the claim that no
session is saved on that path is false. -/
theorem perform_login_saves_despite_missing_indicator :
    (perform_login ⟨.ok, .ok, .ok, .ok, false, .ok⟩).1 =
      [.navigate, .fillField "#account", .fillField "#password", .submitClick,
        .waitIndicator false, .saveSession] ∧
    LoginEvent.saveSession ∈ (perform_login ⟨.ok, .ok, .ok, .ok, false, .ok⟩).1 ∧
    (perform_login ⟨.ok, .ok, .ok, .ok, false, .ok⟩).2 = false := by
  decide

/-- C1 amended: within `perform_login`, the session save happens only
after the complete login sequence — navigation, credential fill,
submit, indicator wait, state export — has run without an exception: if
any of those steps throws, the exception propagates and no session is
saved, and whenever a save occurs it is the last event of the run. But
the save is not gated on a confirmed login indicator: when every step
completes, the session is saved whether or not the post-submit
indicator appeared within its timeout. -/
theorem perform_login_save_ordering :
    (∀ b : LoginPageBehavior, (perform_login b).2 = true →
      LoginEvent.saveSession ∉ (perform_login b).1) ∧
    (∀ b : LoginPageBehavior, b.gotoLogin = .ok → b.fillAccount = .ok →
      b.fillPassword = .ok → b.clickSubmit = .ok → b.exportState = .ok →
      (perform_login b).1 =
        [.navigate, .fillField "#account", .fillField "#password", .submitClick,
          .waitIndicator b.indicatorAppears, .saveSession] ∧
      (perform_login b).2 = false) ∧
    (∀ b : LoginPageBehavior, LoginEvent.saveSession ∈ (perform_login b).1 →
      (perform_login b).1.getLast? = some LoginEvent.saveSession) := by
  refine ⟨?_, ?_, ?_⟩
  · intro b
    rcases b with ⟨g, fa, fp, cs, ind, ex⟩
    cases g <;> cases fa <;> cases fp <;> cases cs <;> cases ex <;>
      simp [perform_login]
  · intro b hg hfa hfp hcs hex
    rcases b with ⟨g, fa, fp, cs, ind, ex⟩
    simp only at hg hfa hfp hcs hex
    subst hg; subst hfa; subst hfp; subst hcs; subst hex
    exact ⟨rfl, rfl⟩
  · intro b
    rcases b with ⟨g, fa, fp, cs, ind, ex⟩
    cases g <;> cases fa <;> cases fp <;> cases cs <;> cases ex <;>
      simp [perform_login, List.getLast?]

/-- Witness for C1 (amended): a fully successful run with the
indicator present. -/
theorem perform_login_save_ordering_witness :
    (perform_login ⟨.ok, .ok, .ok, .ok, true, .ok⟩).1 =
      [.navigate, .fillField "#account", .fillField "#password", .submitClick,
        .waitIndicator true, .saveSession] ∧
    (perform_login ⟨.ok, .ok, .ok, .ok, true, .ok⟩).2 = false :=
  perform_login_save_ordering.2.1 ⟨.ok, .ok, .ok, .ok, true, .ok⟩
    rfl rfl rfl rfl rfl

/-! ### Helper lemmas about the stable descending sort -/

/-- Membership through `insertDesc`. -/
theorem mem_insertDesc (r x : WorkOrderRow) (l : List WorkOrderRow) :
    x ∈ insertDesc r l ↔ x = r ∨ x ∈ l := by
  induction l with
  | nil => simp [insertDesc]
  | cons b t ih =>
    unfold insertDesc
    by_cases hk : rowKey b > rowKey r
    · simp only [hk, if_true, List.mem_cons, ih]
      tauto
    · simp only [hk, if_false, List.mem_cons]

/-- `insertDesc` never yields the empty list. -/
theorem insertDesc_ne_nil (r : WorkOrderRow) (l : List WorkOrderRow) :
    insertDesc r l ≠ [] := by
  cases l with
  | nil => simp [insertDesc]
  | cons b t =>
    unfold insertDesc
    split <;> simp

/-- `insertDesc` preserves the descending-key ordering. -/
theorem pairwise_insertDesc (r : WorkOrderRow) (l : List WorkOrderRow)
    (h : l.Pairwise (fun a b => rowKey b ≤ rowKey a)) :
    (insertDesc r l).Pairwise (fun a b => rowKey b ≤ rowKey a) := by
  induction l with
  | nil => simp [insertDesc]
  | cons b t ih =>
    rw [List.pairwise_cons] at h
    obtain ⟨hb, ht⟩ := h
    unfold insertDesc
    by_cases hk : rowKey b > rowKey r
    · simp only [hk, if_true]
      rw [List.pairwise_cons]
      refine ⟨?_, ih ht⟩
      intro x hx
      rcases (mem_insertDesc r x t).1 hx with rfl | hxt
      · exact le_of_lt hk
      · exact hb x hxt
    · simp only [hk, if_false]
      rw [List.pairwise_cons]
      refine ⟨?_, List.pairwise_cons.2 ⟨hb, ht⟩⟩
      intro x hx
      rcases List.mem_cons.1 hx with rfl | hxt
      · exact le_of_not_lt hk
      · exact le_trans (hb x hxt) (le_of_not_lt hk)

/-- The sort permutes nothing in and nothing out. -/
theorem mem_sortByModifyTimeDesc (x : WorkOrderRow) (l : List WorkOrderRow) :
    x ∈ sortByModifyTimeDesc l ↔ x ∈ l := by
  induction l with
  | nil => simp [sortByModifyTimeDesc]
  | cons r t ih =>
    show x ∈ insertDesc r (sortByModifyTimeDesc t) ↔ _
    rw [mem_insertDesc, ih]
    exact List.mem_cons.symm

/-- The sorted list is descending in the row key. -/
theorem pairwise_sortByModifyTimeDesc (l : List WorkOrderRow) :
    (sortByModifyTimeDesc l).Pairwise (fun a b => rowKey b ≤ rowKey a) := by
  induction l with
  | nil => simp [sortByModifyTimeDesc]
  | cons r t ih =>
    show (insertDesc r (sortByModifyTimeDesc t)).Pairwise _
    exact pairwise_insertDesc r _ ih

/-- Sorting yields the empty list only for the empty list. -/
theorem sortByModifyTimeDesc_eq_nil_iff (l : List WorkOrderRow) :
    sortByModifyTimeDesc l = [] ↔ l = [] := by
  cases l with
  | nil => simp [sortByModifyTimeDesc]
  | cons r t =>
    show insertDesc r (sortByModifyTimeDesc t) = [] ↔ _
    simp [insertDesc_ne_nil]

/-- The selected row is a member of the input and maximizes the parsed
modification time. -/
theorem selectLatestRow_spec (rows : List WorkOrderRow) (r : WorkOrderRow)
    (h : selectLatestRow rows = some r) :
    r ∈ rows ∧ ∀ x ∈ rows, rowKey x ≤ rowKey r := by
  unfold selectLatestRow at h
  cases hs : sortByModifyTimeDesc rows with
  | nil => rw [hs] at h; simp at h
  | cons a t =>
    rw [hs] at h
    simp only [List.head?_cons, Option.some.injEq] at h
    subst h
    have hpw := pairwise_sortByModifyTimeDesc rows
    rw [hs, List.pairwise_cons] at hpw
    constructor
    · rw [← mem_sortByModifyTimeDesc, hs]
      exact List.mem_cons_self _ _
    · intro x hx
      rw [← mem_sortByModifyTimeDesc, hs] at hx
      rcases List.mem_cons.1 hx with rfl | hxt
      · exact le_refl _
      · exact hpw.1 x hxt

/-! ### Claim about the timestamp tie-break (C8) -/

/-- C8 counterexample: an unparsable timestamp parses to
`datetime.min`, but so does the parsable timestamp
`"0001-01-01 00:00:00"`; the sort keys tie, the stable sort keeps the
original order, and the unparsable row is selected over a row with a
parsable timestamp — so "never selected over any row with a parsable
timestamp", as stated, is false. -/
theorem tie_break_min_timestamp_counterexample :
    PyTime.strptimeYmdHms? "not a date" = none ∧
    PyTime.strptimeYmdHms? "0001-01-01 00:00:00" = some PyTime.pyDatetimeMin ∧
    selectLatestRow [⟨"111", "not a date", 0⟩, ⟨"222", "0001-01-01 00:00:00", 1⟩] =
      some ⟨"111", "not a date", 0⟩ := by
  decide

/-- C8 amended: when one candidate yields several structurally valid
rows, the row whose parsed modification time is greatest is selected
(rows with timestamps `T1 < T2 < T3` in any order select the `T3` row);
an unparsable timestamp sorts as `datetime.min` — never above any row
with a strictly later parsable timestamp, though it can tie with, and
then precede, a row whose parsable timestamp equals `datetime.min` —
no row is dropped from eligibility (a non-empty list always selects a
row, and the selection is a member), and the comparison is total, so it
never crashes. -/
theorem select_latest_row_max_key :
    (∀ (rows : List WorkOrderRow) (r : WorkOrderRow), selectLatestRow rows = some r →
      r ∈ rows ∧ ∀ x ∈ rows, rowKey x ≤ rowKey r) ∧
    (∀ (rows : List WorkOrderRow) (r : WorkOrderRow), r ∈ rows →
      (∀ x ∈ rows, x ≠ r → rowKey x < rowKey r) → selectLatestRow rows = some r) ∧
    (∀ rows : List WorkOrderRow, rows ≠ [] → (selectLatestRow rows).isSome = true) := by
  have hsome : ∀ rows : List WorkOrderRow, rows ≠ [] →
      (selectLatestRow rows).isSome = true := by
    intro rows hne
    unfold selectLatestRow
    cases hs : sortByModifyTimeDesc rows with
    | nil => exact absurd ((sortByModifyTimeDesc_eq_nil_iff rows).1 hs) hne
    | cons a t => simp
  refine ⟨selectLatestRow_spec, ?_, hsome⟩
  intro rows r hr hmax
  have hne : rows ≠ [] := by
    intro e
    rw [e] at hr
    exact List.not_mem_nil r hr
  cases hsel : selectLatestRow rows with
  | none =>
    have := hsome rows hne
    rw [hsel] at this
    simp at this
  | some a =>
    obtain ⟨ha, hamax⟩ := selectLatestRow_spec rows a hsel
    by_cases har : a = r
    · rw [har]
    · exact absurd (hamax r hr) (not_le.2 (hmax a ha har))

/-- Witness for C8 (amended): three rows with strictly increasing
timestamps, listed out of order, select the latest one. -/
theorem select_latest_row_max_key_witness :
    selectLatestRow
      [⟨"a", "2024-01-01 00:00:00", 0⟩, ⟨"c", "2025-12-15 21:28:23", 1⟩,
        ⟨"b", "2025-06-01 12:00:00", 2⟩] =
      some ⟨"c", "2025-12-15 21:28:23", 1⟩ :=
  select_latest_row_max_key.2.1
    [⟨"a", "2024-01-01 00:00:00", 0⟩, ⟨"c", "2025-12-15 21:28:23", 1⟩,
      ⟨"b", "2025-06-01 12:00:00", 2⟩]
    ⟨"c", "2025-12-15 21:28:23", 1⟩ (by decide) (by decide)

/-! ### Claim about digit-run extraction (C9) -/

/-- The head of a non-empty `dropWhile` result fails the predicate. -/
theorem dropWhile_head_false {α : Type} (p : α → Bool) (l : List α) (c : α)
    (t : List α) (h : l.dropWhile p = c :: t) : p c = false := by
  induction l with
  | nil => simp [List.dropWhile] at h
  | cons a l' ih =>
    rw [List.dropWhile_cons] at h
    split at h
    · exact ih h
    · next hpa =>
      cases h
      simpa using hpa

/-- C9 counterexample: the fullwidth digit `１` (U+FF10 block) is a
Unicode decimal digit but not an ASCII digit; `re.search(r'\d+', …)`
matches it, so the extractor returns `"１23"` where the claim's
first-maximal-ASCII-digit-run rule would return `"23"`. -/
theorem extract_work_order_id_fullwidth_digit :
    extract_work_order_id "１23" = some "１23" ∧
    asciiDigitRunSpec "１23" = some "23" ∧
    extract_work_order_id "１23" ≠ asciiDigitRunSpec "１23" := by
  decide

/-- C9 amended: identifier extraction trims whitespace and returns the
first maximal run of Unicode decimal digits (ASCII digits included, but
also the other `Nd` digits that `re`'s `\d` matches) in the input text:
the result is a non-empty all-digit run, the characters before it
contain no digit, the character after it is not a digit, and a
not-found (`None`) result means the trimmed text contains no digit at
all; `"20055094254<span>copy</span>"` yields `"20055094254"`, while
`"abc"` and the empty input yield `None`. -/
theorem extract_work_order_id_digit_run :
    extract_work_order_id "20055094254<span>copy</span>" = some "20055094254" ∧
    (extract_work_order_id "abc" = none ∧ extract_work_order_id "" = none) ∧
    (∀ text r : String, extract_work_order_id text = some r →
      r.data ≠ [] ∧ r.data.all pyIsDecimalDigit = true ∧
      ∃ pre post : List Char,
        pyStripChars text.data = pre ++ r.data ++ post ∧
        pre.all (fun c => !pyIsDecimalDigit c) = true ∧
        ∀ (c : Char) (t : List Char), post = c :: t → pyIsDecimalDigit c = false) ∧
    (∀ text : String, extract_work_order_id text = none →
      (pyStripChars text.data).all (fun c => !pyIsDecimalDigit c) = true) := by
  refine ⟨by decide, ⟨by decide, by decide⟩, ?_, ?_⟩
  · intro text r h
    unfold extract_work_order_id at h
    split at h
    · exact absurd h (by simp)
    · cases hrest : (pyStripChars text.data).dropWhile
          (fun c => !pyIsDecimalDigit c) with
      | nil =>
        rw [hrest] at h
        exact absurd h (by simp)
      | cons c0 t0 =>
        rw [hrest] at h
        replace h : some (String.mk ((c0 :: t0).takeWhile pyIsDecimalDigit)) =
            some r := h
        have hr : r = String.mk ((c0 :: t0).takeWhile pyIsDecimalDigit) := by
          cases h
          rfl
        have hc0 : pyIsDecimalDigit c0 = true := by
          have := dropWhile_head_false _ _ _ _ hrest
          simpa using this
        have hrd : r.data = (c0 :: t0).takeWhile pyIsDecimalDigit := by rw [hr]
        refine ⟨?_, ?_, (pyStripChars text.data).takeWhile (fun c => !pyIsDecimalDigit c),
          (c0 :: t0).dropWhile pyIsDecimalDigit, ?_, ?_, ?_⟩
        · rw [hrd, List.takeWhile_cons, hc0]
          simp
        · rw [List.all_eq_true, hrd]
          intro x hx
          exact List.mem_takeWhile_imp hx
        · rw [hrd]
          calc pyStripChars text.data
              = (pyStripChars text.data).takeWhile (fun c => !pyIsDecimalDigit c) ++
                (pyStripChars text.data).dropWhile (fun c => !pyIsDecimalDigit c) :=
                (List.takeWhile_append_dropWhile _ _).symm
            _ = (pyStripChars text.data).takeWhile (fun c => !pyIsDecimalDigit c) ++
                ((c0 :: t0).takeWhile pyIsDecimalDigit ++
                  (c0 :: t0).dropWhile pyIsDecimalDigit) := by
                rw [hrest, List.takeWhile_append_dropWhile]
            _ = (pyStripChars text.data).takeWhile (fun c => !pyIsDecimalDigit c) ++
                (c0 :: t0).takeWhile pyIsDecimalDigit ++
                (c0 :: t0).dropWhile pyIsDecimalDigit := by
                rw [List.append_assoc]
        · rw [List.all_eq_true]
          intro x hx
          have hpx := List.mem_takeWhile_imp hx
          simpa using hpx
        · intro c t hct
          exact dropWhile_head_false pyIsDecimalDigit (c0 :: t0) c t hct
  · intro text h
    unfold extract_work_order_id at h
    split at h
    · next hte =>
      subst hte
      decide
    · cases hrest : (pyStripChars text.data).dropWhile
          (fun c => !pyIsDecimalDigit c) with
      | nil =>
        rw [List.dropWhile_eq_nil_iff] at hrest
        rw [List.all_eq_true]
        exact hrest
      | cons c0 t0 =>
        rw [hrest] at h
        replace h : some (String.mk ((c0 :: t0).takeWhile pyIsDecimalDigit)) =
            none := h
        exact absurd h (by simp)

/-- Witness for C9 (amended): markup around the digit run. -/
theorem extract_work_order_id_digit_run_witness :
    extract_work_order_id "x20055094254y" = some "20055094254" ∧
    ("20055094254" : String).data ≠ [] ∧
    ("20055094254" : String).data.all pyIsDecimalDigit = true :=
  ⟨by decide,
    (extract_work_order_id_digit_run.2.2.1 "x20055094254y" "20055094254"
      (by decide)).1,
    (extract_work_order_id_digit_run.2.2.1 "x20055094254y" "20055094254"
      (by decide)).2.1⟩
